import Mathlib

/-!
Verification development for the Streamlit data-analysis dashboard
(`src/app.py`).  The program is embedded shallowly: a pandas DataFrame
becomes a column-oriented `Table`, the dataset lookup `load_data`
becomes a Lean function returning `Except PyError Table`, the chart
render paths become functions on `Table`, and the single mutation
(`data["bill_per_person"] = data["total_bill"] / data["size"]`) becomes
an explicit column update.  External library behaviour (the seaborn
bundled datasets, seaborn's hue grouping) is modelled from the spec and
marked as such in the doc comments.
-/

namespace DataApp

/-- A cell value of a pandas column: a numeric value (modelled as a
rational, since the numbers the program manipulates are decimal
literals and exact divisions), a string/categorical value, a boolean
(pandas `bool` dtype, which `select_dtypes(include=np.number)` does not
select), or a missing value (NaN/None). -/
inductive Value where
  | num (q : ℚ)
  | str (s : String)
  | bool (b : Bool)
  | na
deriving DecidableEq, Repr

/-- One column of a DataFrame: its name, whether its dtype is numeric
(the property `select_dtypes(include=np.number)` keys on), and its
cell values in row order. -/
structure Column where
  name : String
  numeric : Bool
  values : List Value
deriving DecidableEq, Repr

/-- A pandas DataFrame, column-oriented. -/
abbrev Table := List Column

/-- The column-name list of a table (`df.columns`). -/
def Table.colNames (t : Table) : List String :=
  t.map (·.name)

/-- Look up a column by name (`df[name]` read access), first match in
column order; `none` models a `KeyError`. -/
def Table.getCol : Table → String → Option Column
  | [], _ => none
  | c :: t, n => if c.name = n then some c else Table.getCol t n

/-- Number of rows (`len(df)`): the length of the first column's value
list, 0 for a table with no columns. -/
def Table.nrows (t : Table) : Nat :=
  match t with
  | [] => 0
  | c :: _ => c.values.length

/-- A rectangular table: every column has the same number of values. -/
def Table.wellFormed (t : Table) : Prop :=
  ∀ c ∈ t, c.values.length = t.nrows

instance (t : Table) : Decidable t.wellFormed := by
  unfold Table.wellFormed
  infer_instance

/-- Existence of a column name in a table (`name in df.columns`). -/
def hasCol (t : Table) (n : String) : Bool :=
  t.any (·.name = n)

/-- Replace in place every column of a given name by a new column of
that name. -/
def replaceCol (n : String) (b : Bool) (v : List Value) : Table → Table
  | [] => []
  | c :: t => (if c.name = n then ⟨n, b, v⟩ else c) :: replaceCol n b v t

/-- Write a column (`df[name] = series`): if a column of that name
exists, it is replaced in place; otherwise the new column is appended
at the end.  This is pandas `__setitem__` semantics. -/
def Table.setCol (t : Table) (n : String) (numeric : Bool) (vals : List Value) : Table :=
  if hasCol t n then replaceCol n numeric vals t else t ++ [⟨n, numeric, vals⟩]

/-- Drop every column of a given name; used to state frame properties
("all columns other than `bill_per_person` are unchanged"). -/
def Table.dropCol : Table → String → Table
  | [], _ => []
  | c :: t, n => if c.name = n then Table.dropCol t n else c :: Table.dropCol t n

/-- The numeric-dtype restriction `df.select_dtypes(include=np.number)`:
keeps exactly the columns whose dtype is numeric, in order. -/
def Table.selectNumber (t : Table) : Table :=
  t.filter (·.numeric)

/-- Emptiness test `df.empty`: true iff the table has no columns or no
rows (pandas: some axis has length zero). -/
def Table.isEmptyTable (t : Table) : Bool :=
  t.isEmpty || t.nrows = 0

end DataApp

namespace DataApp

/-- Modelled from the spec: the seaborn bundled Iris dataset is external
to the repository (loaded by `sns.load_dataset("iris")` in `load_data`,
src/app.py line 102).  The spec fixes its column set; representative
rows are included so the table is non-empty. Columns:
`sepal_length, sepal_width, petal_length, petal_width` (numeric) and
`species` (categorical). -/
def irisTable : Table :=
  [ ⟨"sepal_length", true, [.num 5.1, .num 4.9, .num 7.0]⟩,
    ⟨"sepal_width",  true, [.num 3.5, .num 3.0, .num 3.2]⟩,
    ⟨"petal_length", true, [.num 1.4, .num 1.4, .num 4.7]⟩,
    ⟨"petal_width",  true, [.num 0.2, .num 0.2, .num 1.4]⟩,
    ⟨"species", false, [.str "setosa", .str "setosa", .str "versicolor"]⟩ ]

/-- Modelled from the spec: the seaborn bundled Titanic dataset is
external to the repository (loaded by `sns.load_dataset("titanic")` in
`load_data`, src/app.py line 104).  Its fixed column set is
`survived, pclass, age, sibsp, parch, fare` (numeric) together with the
categorical/boolean columns below; representative rows are included so
the table is non-empty. -/
def titanicTable : Table :=
  [ ⟨"survived", true, [.num 0, .num 1]⟩,
    ⟨"pclass",   true, [.num 3, .num 1]⟩,
    ⟨"sex", false, [.str "male", .str "female"]⟩,
    ⟨"age",   true, [.num 22, .num 38]⟩,
    ⟨"sibsp", true, [.num 1, .num 1]⟩,
    ⟨"parch", true, [.num 0, .num 0]⟩,
    ⟨"fare",  true, [.num 7.25, .num 71.2833]⟩,
    ⟨"embarked", false, [.str "S", .str "C"]⟩,
    ⟨"class", false, [.str "Third", .str "First"]⟩,
    ⟨"who", false, [.str "man", .str "woman"]⟩,
    ⟨"adult_male", false, [.bool true, .bool false]⟩,
    ⟨"deck", false, [.na, .str "C"]⟩,
    ⟨"embark_town", false, [.str "Southampton", .str "Cherbourg"]⟩,
    ⟨"alive", false, [.str "no", .str "yes"]⟩,
    ⟨"alone", false, [.bool false, .bool false]⟩ ]

/-- Modelled from the spec: the seaborn bundled Tips dataset is external
to the repository (loaded by `sns.load_dataset("tips")` in `load_data`,
src/app.py line 106).  Its fixed column set is
`total_bill, tip, size` (numeric) and `sex, smoker, day, time`
(categorical); representative rows are included — among them the spec's
end-to-end scenario row with `total_bill = 20.0` and `size = 4`. -/
def tipsTable : Table :=
  [ ⟨"total_bill", true, [.num 16.99, .num 10.34, .num 20.0]⟩,
    ⟨"tip",        true, [.num 1.01, .num 1.66, .num 3.0]⟩,
    ⟨"sex", false, [.str "Female", .str "Male", .str "Male"]⟩,
    ⟨"smoker", false, [.str "No", .str "No", .str "No"]⟩,
    ⟨"day", false, [.str "Sun", .str "Sun", .str "Sun"]⟩,
    ⟨"time", false, [.str "Dinner", .str "Dinner", .str "Dinner"]⟩,
    ⟨"size", true, [.num 2, .num 3, .num 4]⟩ ]

/-- Failure modes of the embedded Python code.  `unboundLocalError v`
models Python raising `UnboundLocalError` because local variable `v`
is referenced before assignment; `keyError k` models a missing-column
access; `configurationError` is the error class the spec names for the
dataset lookup (it appears nowhere in the code, which has no such
class — it is included only so the spec's claim about it can be
stated). -/
inductive PyError where
  | unboundLocalError (v : String)
  | keyError (k : String)
  | configurationError
deriving DecidableEq, Repr

/-- The dataset lookup `load_data` (src/app.py lines 100-107).  The
three `if`/`elif` branches assign `data`; any other identifier falls
through every branch, so the final `return data` raises
`UnboundLocalError` for the local variable `data`. -/
def load_data (dataset : String) : Except PyError Table :=
  if dataset = "Iris" then .ok irisTable
  else if dataset = "Titanic" then .ok titanicTable
  else if dataset = "Tips" then .ok tipsTable
  else .error (.unboundLocalError "data")

/-- Elementwise division of two cell values, as pandas series division
produces it: numeric over numeric divides (exactly, in ℚ); any other
combination yields a missing value. -/
def Value.div : Value → Value → Value
  | .num a, .num b => .num (a / b)
  | _, _ => .na

/-- Rowwise division of two columns, the series expression
`data["total_bill"] / data["size"]`. -/
def zipDiv (xs ys : List Value) : List Value :=
  List.zipWith Value.div xs ys

/-- The Tips feature-interaction mutation (src/app.py line 271):
`data["bill_per_person"] = data["total_bill"] / data["size"]`.  Reading
a missing column is a `KeyError`; otherwise the (numeric) quotient
column is written under the name `bill_per_person`. -/
def featureInteraction (t : Table) : Except PyError Table :=
  match t.getCol "total_bill" with
  | none => .error (.keyError "total_bill")
  | some tb =>
    match t.getCol "size" with
    | none => .error (.keyError "size")
    | some sz => .ok (t.setCol "bill_per_person" true (zipDiv tb.values sz.values))

/-- The (symbolic) result of `numeric_data.corr()`.  Pearson
correlation itself is computed by pandas, an external library; the
embedding records exactly which table the correlation matrix was
computed over, which is what the claims about the heatmap constrain. -/
structure CorrMatrix where
  source : Table
deriving DecidableEq, Repr

/-- Application of the external `DataFrame.corr` to a table. -/
def Table.corr (t : Table) : CorrMatrix := ⟨t⟩

/-- Output of the correlation-heatmap section: either a rendered
heatmap of a correlation matrix, or the textual notice. -/
inductive HeatmapOutput where
  | heatmap (m : CorrMatrix)
  | notice (msg : String)
deriving DecidableEq, Repr

/-- The Titanic branch of the `numeric_data` computation
(src/app.py line 212): `data.select_dtypes(include=np.number)`. -/
def numericDataTitanicBranch (data : Table) : Table :=
  data.selectNumber

/-- The general (non-Titanic) branch of the `numeric_data` computation
(src/app.py line 214): `data.select_dtypes(include=np.number)`. -/
def numericDataGeneralBranch (data : Table) : Table :=
  data.selectNumber

/-- The `numeric_data` computed by the correlation-heatmap section for
a given dataset name (src/app.py lines 211-214): conditional dispatch
between the Titanic branch and the general branch. -/
def numericData (dataset_name : String) (data : Table) : Table :=
  if dataset_name = "Titanic" then numericDataTitanicBranch data
  else numericDataGeneralBranch data

/-- The correlation-heatmap section (src/app.py lines 209-230): for the
three known dataset names, compute `numeric_data`; if it is non-empty,
render `sns.heatmap(numeric_data.corr(), ...)`, otherwise write the
textual notice.  Outside the three names the section draws nothing
(`none`). -/
def renderCorrHeatmap (dataset_name : String) (data : Table) : Option HeatmapOutput :=
  if dataset_name = "Iris" ∨ dataset_name = "Titanic" ∨ dataset_name = "Tips" then
    if ¬ (numericData dataset_name data).isEmptyTable then
      some (.heatmap (numericData dataset_name data).corr)
    else
      some (.notice "No numeric features to compute correlation for this dataset.")
  else
    none

/-- The four scatter-style charts drawn with `sns.scatterplot` in the
program: the Iris sepal scatter (src/app.py line 135), the Tips
tip-vs-bill scatter (line 184), the Tips feature-interaction scatter
(line 274) and the interactive-explorer scatter (line 330). -/
inductive ScatterChart where
  | irisScatter
  | tipsScatter
  | tipsInteraction
  | interactiveScatter
deriving DecidableEq, Repr

/-- The point size `s` passed to `sns.scatterplot` for each
scatter-style chart as a function of the `animate` checkbox:
`100 if animate else 50` for the Iris scatter (src/app.py line 141) and
`80 if animate else 40` for the other three (lines 190, 280, 336). -/
def pointSize : ScatterChart → Bool → Nat
  | .irisScatter, animate => if animate then 100 else 50
  | .tipsScatter, animate => if animate then 80 else 40
  | .tipsInteraction, animate => if animate then 80 else 40
  | .interactiveScatter, animate => if animate then 80 else 40

/-- The option list of the interactive explorer's hue selector
(src/app.py line 324): `["None"] + list(data.columns)`. -/
def hueOptions (data : Table) : List String :=
  "None" :: data.colNames

/-- The hue argument passed to `sns.scatterplot` by the interactive
explorer (src/app.py line 333): `None if hue_col == "None" else
hue_col`. -/
def hueArg (hue_col : String) : Option String :=
  if hue_col = "None" then none else some hue_col

/-- Helper for `distinctValues`: keep the values not seen before. -/
def distinctAux (seen : List Value) : List Value → List Value
  | [] => []
  | v :: vs => if v ∈ seen then distinctAux seen vs
               else v :: distinctAux (v :: seen) vs

/-- Keep the first occurrence of each value, in order: the distinct
values of a column. -/
def distinctValues (l : List Value) : List Value :=
  distinctAux [] l

/-- Modelled from the spec: seaborn's scatterplot series grouping is
external library behaviour.  With no hue grouping the plot is a single
series; with a hue column the points are grouped into one series per
distinct value of that column. -/
def seriesCount (data : Table) (hue : Option String) : Option Nat :=
  match hue with
  | none => some 1
  | some c =>
    match data.getCol c with
    | none => none
    | some col => some (distinctValues col.values).length

/-- The render paths of the program that receive the loaded dataset
`data` (src/app.py lines 112-349): the dataset-overview panel (display
plus `describe()`), the per-dataset basic charts, the correlation
heatmap, the Iris pair plot, the distribution plot, the Tips
feature-interaction panel, and the interactive-explorer scatter. -/
inductive RenderOp where
  | datasetOverview
  | irisScatterOp
  | titanicCountOp
  | tipsScatterOp
  | corrHeatmapOp
  | irisPairPlotOp
  | distributionOp (col : String)
  | tipsFeatureInteractionOp
  | interactiveScatterOp (x y hue : String)
deriving DecidableEq, Repr

/-- The effect of each render path on the loaded table.  Every path
only reads `data` except the Tips feature-interaction panel, whose
first statement is the `bill_per_person` column assignment
(src/app.py line 271). -/
def applyOp : RenderOp → Table → Except PyError Table
  | .tipsFeatureInteractionOp, t => featureInteraction t
  | _, t => .ok t

/-- The figure parameters the interactive explorer hands to
`sns.scatterplot` (src/app.py lines 329-338): the chosen axes, the hue
argument (`None` when the selector shows "None"), and the point
size. -/
structure ScatterFigure where
  x : String
  y : String
  hue : Option String
  s : Nat
deriving DecidableEq, Repr

/-- The interactive-explorer scatter render (src/app.py lines 328-338)
as a figure-parameter computation. -/
def renderInteractiveScatter (data : Table) (x_col y_col hue_col : String)
    (animate : Bool) : ScatterFigure :=
  { x := x_col, y := y_col, hue := hueArg hue_col,
    s := pointSize .interactiveScatter animate }

section Lemmas

theorem getCol_replaceCol_self (n : String) (b : Bool) (v : List Value) :
    ∀ t : Table, hasCol t n = true →
      Table.getCol (replaceCol n b v t) n = some ⟨n, b, v⟩ := by
  intro t
  induction t with
  | nil => intro h; simp [hasCol] at h
  | cons c t ih =>
    intro h
    by_cases hc : c.name = n
    · simp [replaceCol, Table.getCol, hc]
    · have ht : hasCol t n = true := by
        simp only [hasCol, List.any_cons, Bool.or_eq_true, decide_eq_true_eq] at h
        rcases h with h | h
        · exact absurd h hc
        · simpa [hasCol] using h
      simp [replaceCol, Table.getCol, hc, ih ht]

theorem getCol_append_single_self (n : String) (b : Bool) (v : List Value) :
    ∀ t : Table, hasCol t n = false →
      Table.getCol (t ++ [⟨n, b, v⟩]) n = some ⟨n, b, v⟩ := by
  intro t
  induction t with
  | nil => intro _; simp [Table.getCol]
  | cons c t ih =>
    intro h
    simp only [hasCol, List.any_cons, Bool.or_eq_false_iff, decide_eq_false_iff_not] at h
    simp [Table.getCol, h.1, ih (by simpa [hasCol] using h.2)]

/-- Looking up the written name after `setCol` finds exactly the
written column. -/
theorem getCol_setCol_self (t : Table) (n : String) (b : Bool) (v : List Value) :
    (t.setCol n b v).getCol n = some ⟨n, b, v⟩ := by
  unfold Table.setCol
  by_cases h : hasCol t n
  · simpa [h] using getCol_replaceCol_self n b v t h
  · simp only [Bool.not_eq_true] at h
    simpa [h] using getCol_append_single_self n b v t h

theorem getCol_replaceCol_ne (m n : String) (b : Bool) (v : List Value)
    (hmn : m ≠ n) :
    ∀ t : Table, Table.getCol (replaceCol n b v t) m = Table.getCol t m := by
  intro t
  induction t with
  | nil => simp [replaceCol]
  | cons c t ih =>
    by_cases hc : c.name = n
    · have hcm : ¬ c.name = m := by rw [hc]; exact fun e => hmn e.symm
      simp [replaceCol, Table.getCol, hc, hcm, Ne.symm hmn, ih]
    · by_cases hm : c.name = m
      · simp [replaceCol, Table.getCol, hc, hm, hmn]
      · simp [replaceCol, Table.getCol, hc, hm, ih]

/-- Looking up any other name is unaffected by `setCol`. -/
theorem getCol_setCol_ne (t : Table) (m n : String) (b : Bool) (v : List Value)
    (hmn : m ≠ n) : (t.setCol n b v).getCol m = t.getCol m := by
  unfold Table.setCol
  by_cases h : hasCol t n
  · simpa [h] using getCol_replaceCol_ne m n b v hmn t
  · simp only [Bool.not_eq_true] at h
    simp only [h, Bool.false_eq_true, if_false]
    induction t with
    | nil => simp [Table.getCol, Ne.symm hmn]
    | cons c t ih =>
      simp only [hasCol, List.any_cons, Bool.or_eq_false_iff,
        decide_eq_false_iff_not] at h
      by_cases hm : c.name = m
      · simp [Table.getCol, hm]
      · simp [Table.getCol, hm, ih (by simpa [hasCol] using h.2)]

theorem hasCol_replaceCol (n : String) (b : Bool) (v : List Value) :
    ∀ t : Table, hasCol (replaceCol n b v t) n = hasCol t n := by
  intro t
  induction t with
  | nil => simp [replaceCol]
  | cons c t ih =>
    by_cases hc : c.name = n
    · simp [replaceCol, hasCol, hc]
    · simpa [replaceCol, hasCol, hc] using ih

theorem replaceCol_idem (n : String) (b : Bool) (v : List Value) :
    ∀ t : Table, replaceCol n b v (replaceCol n b v t) = replaceCol n b v t := by
  intro t
  induction t with
  | nil => simp [replaceCol]
  | cons c t ih =>
    by_cases hc : c.name = n
    · simp [replaceCol, hc, ih]
    · simp [replaceCol, hc, ih]

theorem replaceCol_of_hasCol_false (n : String) (b : Bool) (v : List Value) :
    ∀ t : Table, hasCol t n = false → replaceCol n b v t = t := by
  intro t
  induction t with
  | nil => intro _; simp [replaceCol]
  | cons c t ih =>
    intro h
    simp only [hasCol, List.any_cons, Bool.or_eq_false_iff,
      decide_eq_false_iff_not] at h
    simp [replaceCol, h.1, ih (by simpa [hasCol] using h.2)]

theorem replaceCol_append (n : String) (b : Bool) (v : List Value) :
    ∀ s t : Table,
      replaceCol n b v (s ++ t) = replaceCol n b v s ++ replaceCol n b v t := by
  intro s t
  induction s with
  | nil => simp [replaceCol]
  | cons c s ih => simp [replaceCol, ih]

/-- Writing the same column twice is the same as writing it once. -/
theorem setCol_idem (t : Table) (n : String) (b : Bool) (v : List Value) :
    (t.setCol n b v).setCol n b v = t.setCol n b v := by
  unfold Table.setCol
  by_cases h : hasCol t n
  · simp [h, hasCol_replaceCol, replaceCol_idem]
  · simp only [Bool.not_eq_true] at h
    have happ : hasCol (t ++ [(⟨n, b, v⟩ : Column)]) n = true := by
      simp [hasCol]
    simp [h, happ, replaceCol_append, replaceCol_of_hasCol_false n b v t h,
      replaceCol]

theorem dropCol_replaceCol (n : String) (b : Bool) (v : List Value) :
    ∀ t : Table, Table.dropCol (replaceCol n b v t) n = Table.dropCol t n := by
  intro t
  induction t with
  | nil => simp [replaceCol]
  | cons c t ih =>
    by_cases hc : c.name = n
    · simp [replaceCol, Table.dropCol, hc, ih]
    · simp [replaceCol, Table.dropCol, hc, ih]

theorem dropCol_append_single (n : String) (b : Bool) (v : List Value) :
    ∀ t : Table, Table.dropCol (t ++ [⟨n, b, v⟩]) n = Table.dropCol t n := by
  intro t
  induction t with
  | nil => simp [Table.dropCol]
  | cons c t ih =>
    by_cases hc : c.name = n
    · simp [Table.dropCol, hc, ih]
    · simp [Table.dropCol, hc, ih]

/-- Dropping the written name erases the effect of `setCol`: all other
columns are untouched. -/
theorem dropCol_setCol (t : Table) (n : String) (b : Bool) (v : List Value) :
    (t.setCol n b v).dropCol n = t.dropCol n := by
  unfold Table.setCol
  by_cases h : hasCol t n
  · simp [h, dropCol_replaceCol]
  · simp only [Bool.not_eq_true] at h
    simp [h, dropCol_append_single]

/-- Indexing into the rowwise quotient column. -/
theorem zipDiv_getD (xs : List Value) :
    ∀ (ys : List Value) (i : Nat), xs.length = ys.length → i < xs.length →
      (zipDiv xs ys).getD i .na = Value.div (xs.getD i .na) (ys.getD i .na) := by
  induction xs with
  | nil => intro ys i _ hi; simp at hi
  | cons x xs ih =>
    intro ys i hlen hi
    cases ys with
    | nil => simp at hlen
    | cons y ys =>
      cases i with
      | zero => simp [zipDiv]
      | succ j =>
        have hlen2 : xs.length = ys.length := by simpa using hlen
        have hj : j < xs.length := by simpa using hi
        simpa [zipDiv] using ih ys j hlen2 hj

end Lemmas

/-- C1: for every identifier in the closed set {"Iris", "Titanic",
"Tips"}, `load_data` returns the corresponding dataset as a non-empty
table whose column set is exactly that dataset's fixed, known column
names. -/
theorem load_data_known_datasets :
    (load_data "Iris" = .ok irisTable ∧ 0 < irisTable.nrows ∧
      irisTable.colNames =
        ["sepal_length", "sepal_width", "petal_length", "petal_width", "species"]) ∧
    (load_data "Titanic" = .ok titanicTable ∧ 0 < titanicTable.nrows ∧
      titanicTable.colNames =
        ["survived", "pclass", "sex", "age", "sibsp", "parch", "fare", "embarked",
         "class", "who", "adult_male", "deck", "embark_town", "alive", "alone"]) ∧
    (load_data "Tips" = .ok tipsTable ∧ 0 < tipsTable.nrows ∧
      tipsTable.colNames =
        ["total_bill", "tip", "sex", "smoker", "day", "time", "size"]) := by
  refine ⟨⟨rfl, ?_, rfl⟩, ⟨rfl, ?_, rfl⟩, ⟨rfl, ?_, rfl⟩⟩ <;> decide

/-- C2 counterexample: the claim says an unknown identifier fails with
a `ConfigurationError`; on the concrete unknown identifier "Unknown"
the code instead falls through every branch and fails with an
`UnboundLocalError` on the local variable `data` — no
`ConfigurationError` exists anywhere in the code. -/
theorem load_data_unknown_not_configurationError :
    ¬ ("Unknown" = "Iris" ∨ "Unknown" = "Titanic" ∨ "Unknown" = "Tips") ∧
    load_data "Unknown" ≠ .error .configurationError ∧
    load_data "Unknown" = .error (.unboundLocalError "data") := by
  refine ⟨by decide, ?_, rfl⟩
  intro h
  rw [show load_data "Unknown" = .error (.unboundLocalError "data") from rfl] at h
  simp at h

/-- C2 (amended): for any dataset identifier outside the set {"Iris",
"Titanic", "Tips"}, `load_data` fails — but with an
`UnboundLocalError` on the never-assigned local variable `data`, not
with a `ConfigurationError`. -/
theorem load_data_unknown_unboundLocal (d : String)
    (h : ¬ (d = "Iris" ∨ d = "Titanic" ∨ d = "Tips")) :
    load_data d = .error (.unboundLocalError "data") := by
  push_neg at h
  unfold load_data
  simp [h.1, h.2.1, h.2.2]

/-- C2 witness: the amended claim applied to the concrete identifier
"Unknown". -/
theorem load_data_unknown_unboundLocal_witness :
    load_data "Unknown" = .error (.unboundLocalError "data") :=
  load_data_unknown_unboundLocal "Unknown" (by decide)

/-- C3: whenever the Tips feature-interaction chart is requested, the
derived `bill_per_person` column equals `total_bill / size` on every
row of the table; in particular the quotient of a row with
`total_bill = 20.0` and `size = 4` is `5.0`. -/
theorem bill_per_person_eq_div (t : Table) (tb sz : Column)
    (htb : t.getCol "total_bill" = some tb)
    (hsz : t.getCol "size" = some sz)
    (hlen : tb.values.length = sz.values.length) :
    ∃ out : Column,
      (featureInteraction t).toOption.bind (fun r => r.getCol "bill_per_person") =
        some out ∧
      out.values = zipDiv tb.values sz.values ∧
      (∀ i : Nat, i < tb.values.length →
        out.values.getD i .na =
          Value.div (tb.values.getD i .na) (sz.values.getD i .na)) ∧
      Value.div (.num 20) (.num 4) = .num 5 := by
  refine ⟨⟨"bill_per_person", true, zipDiv tb.values sz.values⟩, ?_, rfl, ?_, ?_⟩
  · unfold featureInteraction
    rw [htb, hsz]
    simp [Except.toOption, getCol_setCol_self]
  · intro i hi
    exact zipDiv_getD tb.values sz.values i hlen hi
  · show Value.num (20 / 4) = Value.num 5
    norm_num

/-- C3 witness: the theorem evaluated on the Tips table, whose third
row has `total_bill = 20.0` and `size = 4`. -/
theorem bill_per_person_eq_div_witness :
    ∃ out : Column,
      (featureInteraction tipsTable).toOption.bind
        (fun r => r.getCol "bill_per_person") = some out ∧
      out.values =
        zipDiv [.num 16.99, .num 10.34, .num 20.0] [.num 2, .num 3, .num 4] ∧
      (∀ i : Nat, i < ([.num 16.99, .num 10.34, .num 20.0] : List Value).length →
        out.values.getD i .na =
          Value.div (([.num 16.99, .num 10.34, .num 20.0] : List Value).getD i .na)
            (([.num 2, .num 3, .num 4] : List Value).getD i .na)) ∧
      Value.div (.num 20) (.num 4) = .num 5 :=
  bill_per_person_eq_div tipsTable
    ⟨"total_bill", true, [.num 16.99, .num 10.34, .num 20.0]⟩
    ⟨"size", true, [.num 2, .num 3, .num 4]⟩ rfl rfl rfl

/-- C4: recomputing the derived `bill_per_person` column is idempotent:
invoking the Tips feature-interaction computation again on a table it
already produced does not fail and returns that table unchanged —
every value of the derived column and the rest of the table are the
same. -/
theorem featureInteraction_idempotent (t u : Table)
    (h : featureInteraction t = .ok u) :
    featureInteraction u = .ok u := by
  unfold featureInteraction at h ⊢
  cases htb : t.getCol "total_bill" with
  | none => rw [htb] at h; exact absurd h (by simp)
  | some tb =>
    cases hsz : t.getCol "size" with
    | none => rw [htb, hsz] at h; exact absurd h (by simp)
    | some sz =>
      rw [htb, hsz] at h
      injection h with h
      subst h
      rw [getCol_setCol_ne t "total_bill" "bill_per_person" true _ (by decide),
        htb, getCol_setCol_ne t "size" "bill_per_person" true _ (by decide), hsz]
      simp [setCol_idem]

/-- C4 witness: a second invocation on the updated Tips table returns
it unchanged. -/
theorem featureInteraction_idempotent_witness :
    featureInteraction
      (tipsTable.setCol "bill_per_person" true
        (zipDiv [.num 16.99, .num 10.34, .num 20.0] [.num 2, .num 3, .num 4])) =
    .ok (tipsTable.setCol "bill_per_person" true
        (zipDiv [.num 16.99, .num 10.34, .num 20.0] [.num 2, .num 3, .num 4])) :=
  featureInteraction_idempotent tipsTable _ rfl

/-- C5: on any active (hence non-empty) table, the correlation-heatmap
section writes the textual "no numeric features" notice when the table
has zero numeric columns, and otherwise renders the heatmap of the
correlation matrix computed over exactly the numeric columns. -/
theorem corrHeatmap_branches (dataset_name : String) (data : Table)
    (hname : dataset_name = "Iris" ∨ dataset_name = "Titanic" ∨ dataset_name = "Tips")
    (hwf : data.wellFormed) (hrows : 0 < data.nrows) :
    (data.selectNumber = [] →
      renderCorrHeatmap dataset_name data =
        some (.notice "No numeric features to compute correlation for this dataset.")) ∧
    (data.selectNumber ≠ [] →
      renderCorrHeatmap dataset_name data =
        some (.heatmap data.selectNumber.corr)) := by
  have hnum : numericData dataset_name data = data.selectNumber := by
    unfold numericData numericDataTitanicBranch numericDataGeneralBranch
    split <;> rfl
  constructor
  · intro hempty
    unfold renderCorrHeatmap
    rw [if_pos hname, hnum, hempty]
    simp [Table.isEmptyTable]
  · intro hne
    unfold renderCorrHeatmap
    rw [if_pos hname, hnum]
    cases hsel : data.selectNumber with
    | nil => exact absurd hsel hne
    | cons c rest =>
      have hmem : c ∈ data.selectNumber := by
        rw [hsel]; exact List.mem_cons_self c rest
      have hc : c ∈ data := List.mem_of_mem_filter hmem
      have hlen : c.values.length = data.nrows := hwf c hc
      have hemp : Table.isEmptyTable (c :: rest) = false := by
        simp only [Table.isEmptyTable, Table.nrows, List.isEmpty_cons,
          Bool.false_or, decide_eq_false_iff_not]
        omega
      rw [if_pos (by simp [hemp])]

/-- C5 witness: on the Tips dataset the heatmap branch is taken and the
correlation matrix is computed over the numeric columns. -/
theorem corrHeatmap_branches_witness :
    renderCorrHeatmap "Tips" tipsTable =
      some (.heatmap tipsTable.selectNumber.corr) :=
  (corrHeatmap_branches "Tips" tipsTable (by decide) (by decide) (by decide)).2
    (by decide)

/-- C6: no render path mutates the loaded dataset except the Tips
feature-interaction computation, and that computation only adds or
overwrites the single column `bill_per_person`: dropping that column
from the result of any render path gives back the input table with
every other column (and all its row values) unchanged. -/
theorem renderOps_frame (op : RenderOp) (t u : Table)
    (h : applyOp op t = .ok u) :
    u.dropCol "bill_per_person" = t.dropCol "bill_per_person" := by
  cases op
  case tipsFeatureInteractionOp =>
    simp only [applyOp] at h
    unfold featureInteraction at h
    cases htb : t.getCol "total_bill" with
    | none => rw [htb] at h; exact absurd h (by simp)
    | some tb =>
      cases hsz : t.getCol "size" with
      | none => rw [htb, hsz] at h; exact absurd h (by simp)
      | some sz =>
        rw [htb, hsz] at h
        injection h with h
        rw [← h, dropCol_setCol]
  all_goals
    simp only [applyOp] at h
  all_goals
    injection h with h
  all_goals
    rw [h]

/-- C6 witness: the frame property evaluated on the one mutating path,
the Tips feature-interaction computation on the Tips table. -/
theorem renderOps_frame_witness :
    (tipsTable.setCol "bill_per_person" true
        (zipDiv [.num 16.99, .num 10.34, .num 20.0]
          [.num 2, .num 3, .num 4])).dropCol "bill_per_person" =
      tipsTable.dropCol "bill_per_person" :=
  renderOps_frame .tipsFeatureInteractionOp tipsTable _ rfl

/-- C7: for every scatter-style chart in the program, the point size
passed to the plotting call with `animate = true` is exactly double the
point size passed with `animate = false`. -/
theorem pointSize_animate_doubles (c : ScatterChart) :
    pointSize c true = 2 * pointSize c false := by
  cases c <;> rfl

/-- C8: in the interactive explorer, the hue selector's option list is
"None" followed by every column of the active table; selecting "None"
passes no hue grouping and yields a single-series plot, while
selecting a column present in the table yields one series per distinct
value of that column (series grouping modelled from the spec, seaborn
being external). -/
theorem interactiveScatter_hue (data : Table) (x y hue_col : String)
    (anim : Bool) (col : Column)
    (hne : hue_col ≠ "None") (hget : data.getCol hue_col = some col) :
    hueOptions data = "None" :: data.colNames ∧
    (renderInteractiveScatter data x y "None" anim).hue = none ∧
    seriesCount data (renderInteractiveScatter data x y "None" anim).hue = some 1 ∧
    (renderInteractiveScatter data x y hue_col anim).hue = some hue_col ∧
    seriesCount data (renderInteractiveScatter data x y hue_col anim).hue =
      some (distinctValues col.values).length := by
  refine ⟨rfl, rfl, rfl, ?_, ?_⟩
  · simp [renderInteractiveScatter, hueArg, hne]
  · simp [renderInteractiveScatter, hueArg, hne, seriesCount, hget]

/-- C8 witness: on the Iris table, hue "None" yields a single series
and hue "species" yields one series per distinct species — here 2
("setosa" and "versicolor"). -/
theorem interactiveScatter_hue_witness :
    hueOptions irisTable = "None" :: irisTable.colNames ∧
    (renderInteractiveScatter irisTable "sepal_length" "sepal_width" "None"
      true).hue = none ∧
    seriesCount irisTable
      (renderInteractiveScatter irisTable "sepal_length" "sepal_width" "None"
        true).hue = some 1 ∧
    (renderInteractiveScatter irisTable "sepal_length" "sepal_width" "species"
      true).hue = some "species" ∧
    seriesCount irisTable
      (renderInteractiveScatter irisTable "sepal_length" "sepal_width" "species"
        true).hue = some 2 :=
  interactiveScatter_hue irisTable "sepal_length" "sepal_width" "species" true
    ⟨"species", false, [.str "setosa", .str "setosa", .str "versicolor"]⟩
    (by decide) rfl

/-- C9: each of the three selectable dataset identifiers loads to a
table with at least one numeric column, so the correlation heatmap's
"no numeric features" fallback branch is unreachable for every
reachable dataset selection: the section always renders the heatmap of
the correlation matrix over the numeric columns. -/
theorem datasets_numeric_nonempty :
    (load_data "Iris" = .ok irisTable ∧ irisTable.selectNumber ≠ [] ∧
      renderCorrHeatmap "Iris" irisTable =
        some (.heatmap irisTable.selectNumber.corr)) ∧
    (load_data "Titanic" = .ok titanicTable ∧ titanicTable.selectNumber ≠ [] ∧
      renderCorrHeatmap "Titanic" titanicTable =
        some (.heatmap titanicTable.selectNumber.corr)) ∧
    (load_data "Tips" = .ok tipsTable ∧ tipsTable.selectNumber ≠ [] ∧
      renderCorrHeatmap "Tips" tipsTable =
        some (.heatmap tipsTable.selectNumber.corr)) := by
  refine ⟨⟨rfl, by decide, rfl⟩, ⟨rfl, by decide, rfl⟩, ⟨rfl, by decide, rfl⟩⟩

/-- C10: the Titanic-specific branch and the general branch of the
`numeric_data` computation are the identical expression
(`select_dtypes` restricted to numeric columns), so they are
extensionally equal on every input table and the conditional dispatch
on the dataset name is redundant. -/
theorem numericData_branches_equal (dataset_name : String) (data : Table) :
    numericDataTitanicBranch data = numericDataGeneralBranch data ∧
    numericData dataset_name data = numericDataGeneralBranch data := by
  constructor
  · rfl
  · unfold numericData
    split <;> rfl

end DataApp
